import Mathlib

/-!
Verification development for the `unnamed` macOS window layout engine.

The Rust sources are embedded shallowly:

* `src/layout.rs` — pure rectangle geometry (`split_horizontal`, `inset`,
  `get_layout_presets`).  `CGFloat` arithmetic on the concrete screen frames
  considered here (integers, and halving of an even width) is exact, so it is
  modelled with `ℚ`.
* `src/main.rs` — the layout-assignment store, the notification observer
  callback, the keyboard-command handler
  (`update_layout_for_focused_window`), and the registration loop of `main`.
  Foreign calls (Objective-C / accessibility API) are modelled by explicit
  oracle records describing each call's outcome, and effects are returned as
  explicit action lists.
* `src/wrappers.rs` — `Window::relayout`, `Window::borrow_inner`,
  `App::focused_window`, `AccessibilityElement::get_raw`.
* `src/memory.rs` — the `Rc` shared-owner wrapper over the external
  CoreFoundation retain count.
-/

set_option autoImplicit false

namespace Unnamed

/-! ## Errors (src/lib.rs, `UnnamedError`) -/

/-- Shallow model of `UnnamedError` from `src/lib.rs`.  `Whatever` carries the
context message and the wrapped source error, as produced by snafu's
`whatever_context`. -/
inductive UnnamedError where
  | CouldNotCreateCFObject
  | UnexpectedNull
  | AXError (code : Int)
  | RDevError
  | Whatever (message : String) (source : Option UnnamedError)

/-- Model of snafu's `whatever_context` on a `Result`: wrap any error in a
`Whatever` with the given message and the original error as source. -/
def whatever_context {α : Type} (msg : String) :
    Except UnnamedError α → Except UnnamedError α
  | .ok a => .ok a
  | .error e => .error (.Whatever msg (some e))

/-! ## Layout geometry (src/layout.rs) -/

/-- A point, with `CGFloat` modelled as `ℚ` (exact on the inputs considered). -/
structure CGPoint where
  x : ℚ
  y : ℚ
deriving DecidableEq

/-- A size, with `CGFloat` modelled as `ℚ`. -/
structure CGSize where
  width : ℚ
  height : ℚ
deriving DecidableEq

/-- A rectangle as in CoreGraphics. -/
structure CGRect where
  origin : CGPoint
  size : CGSize
deriving DecidableEq

/-- `AXRect` from src/layout.rs holds the origin and size wrapped as foreign
`AXValue` objects; `AXValueCreate` encodes the given point/size verbatim, so
the model keeps the values themselves.  (The allocation-failure path of
`create_ax_rect`, which returns `CouldNotCreateCFObject`, is not needed by any
claim about the computed geometry.) -/
structure AXRect where
  origin : CGPoint
  size : CGSize
deriving DecidableEq

def LEFT_INSET : ℚ := 8
def RIGHT_INSET : ℚ := 8
def TOP_INSET : ℚ := 6
def BOTTOM_INSET : ℚ := 8
def INNER_SPACING : ℚ := 12
def NOTCH_HEIGHT : ℚ := 40

/-- `split_horizontal` from src/layout.rs lines 78-89. -/
def split_horizontal (frame : CGRect) : CGRect × CGRect :=
  let half_width := frame.size.width / 2
  (⟨frame.origin, ⟨half_width, frame.size.height⟩⟩,
   ⟨⟨frame.origin.x + half_width, frame.origin.y⟩,
    ⟨half_width, frame.size.height⟩⟩)

/-- `inset` from src/layout.rs lines 91-105. -/
def inset (rect : CGRect) (left right top bottom : ℚ) : CGRect :=
  ⟨⟨rect.origin.x + left, rect.origin.y + top⟩,
   ⟨rect.size.width - (left + right), rect.size.height - (top + bottom)⟩⟩

/-- `create_ax_rect` from src/layout.rs lines 51-76: wraps the frame's origin
and size as foreign `AXValue` handles (values kept verbatim). -/
def create_ax_rect (frame : CGRect) : AXRect :=
  ⟨frame.origin, frame.size⟩

/-- `LayoutPreset` from src/layout.rs (the `COUNT` sentinel is only an array
length).  `Full` is the `#[default]` variant. -/
inductive LayoutPreset where
  | Full
  | Left
  | Right
deriving DecidableEq

/-- `LayoutPresets` from src/layout.rs: the three precomputed rectangles,
indexed by `LayoutPreset`. -/
structure LayoutPresets where
  full : AXRect
  leftHalf : AXRect
  rightHalf : AXRect
deriving DecidableEq

/-- Array indexing `rects[preset as usize]`. -/
def LayoutPresets.rects (p : LayoutPresets) : LayoutPreset → AXRect
  | .Full => p.full
  | .Left => p.leftHalf
  | .Right => p.rightHalf

/-- `get_layout_presets` from src/layout.rs lines 107-156, with the foreign
`NSScreen::mainScreen().frame()` passed in as `screenFrame`.  The screen frame
is first shifted down by `NOTCH_HEIGHT` and shrunk by the same amount, then
split and inset exactly as in the source. -/
def get_layout_presets (screenFrame : CGRect) : LayoutPresets :=
  let frame : CGRect :=
    ⟨⟨screenFrame.origin.x, screenFrame.origin.y + NOTCH_HEIGHT⟩,
     ⟨screenFrame.size.width, screenFrame.size.height - NOTCH_HEIGHT⟩⟩
  let halves := split_horizontal frame
  { full := create_ax_rect
      (inset frame LEFT_INSET RIGHT_INSET TOP_INSET BOTTOM_INSET)
    leftHalf := create_ax_rect
      (inset halves.1 LEFT_INSET (INNER_SPACING / 2) TOP_INSET BOTTOM_INSET)
    rightHalf := create_ax_rect
      (inset halves.2 (INNER_SPACING / 2) RIGHT_INSET TOP_INSET BOTTOM_INSET) }

/-- The 1440 by 900 screen frame of Scenario E, origin at (0, 0). -/
def screen1440x900 : CGRect := ⟨⟨0, 0⟩, ⟨1440, 900⟩⟩

/-! ## Layout assignment store (src/main.rs) -/

/-- `WindowLayoutAssignment` from src/main.rs lines 48-52. -/
structure WindowLayoutAssignment where
  preset : LayoutPreset
  enabled : Bool
deriving DecidableEq

/-- The `#[derive(Default)]` value: `LayoutPreset::Full` (the `#[default]`
variant) with `enabled = false`. -/
def defaultAssignment : WindowLayoutAssignment := ⟨.Full, false⟩

/-- The inner `HashMap<WindowMagicId, WindowLayoutAssignment>`, modelled as an
association list keyed by the magic id (a `u32`, modelled as `Nat` since no
arithmetic is performed on it). -/
abbrev InnerMap := List (Nat × WindowLayoutAssignment)

/-- `LAYOUT_ASSIGNMENTS`, the `DashMap<String, HashMap<..>>`, modelled as an
association list keyed by bundle id. -/
abbrev Store := List (String × InnerMap)

/-- `HashMap::get` on the inner map. -/
def getEntry : InnerMap → Nat → Option WindowLayoutAssignment
  | [], _ => none
  | (k, v) :: rest, w => if k = w then some v else getEntry rest w

/-- `HashMap::insert` on the inner map (replaces an existing binding). -/
def insertEntry : InnerMap → Nat → WindowLayoutAssignment → InnerMap
  | [], w, a => [(w, a)]
  | (k, v) :: rest, w, a =>
      if k = w then (w, a) :: rest else (k, v) :: insertEntry rest w a

/-- `HashMap::entry(w).or_default()`: returns the existing assignment, or
inserts and returns the default one. -/
def entryOrDefault (m : InnerMap) (w : Nat) : WindowLayoutAssignment × InnerMap :=
  match getEntry m w with
  | some a => (a, m)
  | none => (defaultAssignment, insertEntry m w defaultAssignment)

/-- The toggle branch of `update_layout_for_focused_window` (src/main.rs lines
176-183): `entry(w).or_default().enabled ^= true`. -/
def toggleEntry (m : InnerMap) (w : Nat) : InnerMap :=
  let r := entryOrDefault m w
  insertEntry r.2 w ⟨r.1.preset, !r.1.enabled⟩

/-- `DashMap::get` on the store. -/
def getStore : Store → String → Option InnerMap
  | [], _ => none
  | (k, v) :: rest, b => if k = b then some v else getStore rest b

/-- `DashMap::insert` on the store (replaces an existing binding). -/
def insertStore : Store → String → InnerMap → Store
  | [], b, m => [(b, m)]
  | (k, v) :: rest, b, m =>
      if k = b then (b, m) :: rest else (k, v) :: insertStore rest b m

/-- `DashMap::contains_key`. -/
def containsStore (s : Store) (b : String) : Bool :=
  (getStore s b).isSome

/-- The effective assignment of a (bundle id, window id) pair: the stored
assignment if present, else the `or_default` value `(Full, false)`. -/
def storeEffective (s : Store) (b : String) (w : Nat) : WindowLayoutAssignment :=
  (getEntry ((getStore s b).getD []) w).getD defaultAssignment

/-! ## Attribute setting and relayout (src/wrappers.rs) -/

/-- Outcome oracle for one `AccessibilityElement::set` call: whether the
attribute-key `CFString` could be constructed, and the `AXError` code returned
by `AXUIElementSetAttributeValue` (0 is `kAXErrorSuccess`). -/
structure SetOracle where
  cfstrOk : Bool
  code : Int
deriving DecidableEq

/-- Foreign-call oracle for one `Window::relayout` invocation: its Position
set call and its Size set call. -/
structure RelayoutOracle where
  pos : SetOracle
  siz : SetOracle
deriving DecidableEq

/-- A foreign `AXUIElementSetAttributeValue` call, with the value written. -/
inductive SetOp where
  | position (value : CGPoint)
  | size (value : CGSize)
deriving DecidableEq

/-- Result of `AccessibilityElement::set` (src/wrappers.rs lines 95-113):
a `CFString` construction failure is wrapped by `whatever_context`, and the
foreign call's status code goes through `into_result`. -/
def setAttributeResult (o : SetOracle) : Except UnnamedError Unit :=
  if !o.cfstrOk then
    .error (.Whatever "Failed to construct CFString from accessibility key"
      (some .CouldNotCreateCFObject))
  else if o.code = 0 then .ok () else .error (.AXError o.code)

/-- Result of a `Window::relayout` call: the returned `Result`, the foreign
set calls issued (in order), and the set calls that took effect. -/
structure RelayoutResult where
  result : Except UnnamedError Unit
  attempted : List SetOp
  applied : List SetOp

/-- `Window::relayout` from src/wrappers.rs lines 378-396: set Position from
the frame's origin, then (only if that succeeded) set Size from the frame's
size; each failure is wrapped with the window's bundle id in context and
returned immediately.  A set call is `attempted` only when the key CFString
was constructed (otherwise the foreign call is never reached), and `applied`
when the foreign call returned success. -/
def relayout (bundleId : String) (o : RelayoutOracle) (frame : AXRect) :
    RelayoutResult :=
  let posAttempt : List SetOp := if o.pos.cfstrOk then [.position frame.origin] else []
  match setAttributeResult o.pos with
  | .error e =>
    { result := .error (.Whatever ("Failed to set " ++ bundleId ++ " position") (some e))
      attempted := posAttempt
      applied := [] }
  | .ok _ =>
    let sizeAttempt : List SetOp := if o.siz.cfstrOk then [.size frame.size] else []
    match setAttributeResult o.siz with
    | .error e =>
      { result := .error (.Whatever ("Failed to set " ++ bundleId ++ " size") (some e))
        attempted := posAttempt ++ sizeAttempt
        applied := posAttempt }
    | .ok _ =>
      { result := .ok ()
        attempted := posAttempt ++ sizeAttempt
        applied := posAttempt ++ sizeAttempt }

/-- `Window::magic_id` from src/wrappers.rs lines 402-414, with the foreign
`_AXUIElementGetWindow` outcome given by `code` (0 is success) and `ident`
(the id it writes). -/
def magic_id (code : Int) (ident : Nat) : Except UnnamedError Nat :=
  if code = 0 then .ok ident
  else .error (.Whatever "Failed to get magic window ID" (some (.AXError code)))

/-! ## Windows and the notification observer callback (src/wrappers.rs, src/main.rs) -/

/-- Modelled from the spec: the borrow-or-own variant (`CopyOnWrite` in
`src/wrappers.rs` uses, declared in the `memory` module whose source for this
type is not among the provided files): a tagged union of an owned shared
owner and a raw handle borrowed for the enclosing scope. -/
inductive CopyOnWrite where
  | Owned (rc : Nat)
  | Borrowed (raw : Nat)
deriving DecidableEq

/-- `Window` from src/wrappers.rs lines 310-314: a borrow-or-owned element
handle plus the bundle id string. -/
structure WindowM where
  inner : CopyOnWrite
  bundleId : String
deriving DecidableEq

/-- Foreign-call oracle for one `observer_callback` invocation
(src/main.rs lines 58-96): the element parameter (`none` models a null
pointer), whether the `refcon` context pointer is null, the outcomes of the
foreign lookups done by `Window::borrow_inner`, the magic-id call, and the
relayout set calls. -/
structure CallbackEnv where
  refconNull : Bool
  element : Option Nat
  getPidCode : Int
  runningAppNull : Bool
  bundleNsstringNull : Bool
  bundleId : String
  magicCode : Int
  magicId : Nat
  relayoutOracle : RelayoutOracle

/-- `Window::borrow_inner` from src/wrappers.rs lines 328-376: fail with
`UnexpectedNull` on a null element, wrap an `AXUIElementGetPid` failure with
context, fail with `UnexpectedNull` when the running application or its
bundle-identifier string is null, otherwise return a borrowed window. -/
def borrow_inner (env : CallbackEnv) : Except UnnamedError WindowM :=
  match env.element with
  | none => .error .UnexpectedNull
  | some handle =>
    if env.getPidCode ≠ 0 then
      .error (.Whatever "Could not get window PID" (some (.AXError env.getPidCode)))
    else if env.runningAppNull then .error .UnexpectedNull
    else if env.bundleNsstringNull then .error .UnexpectedNull
    else .ok ⟨.Borrowed handle, env.bundleId⟩

/-- How one callback invocation ends: a panic unwinding across the foreign
boundary (from `expect`/`unwrap`), an early return after printing a
diagnostic, or normal completion. -/
inductive CallbackOutcome where
  | panicked (message : String)
  | loggedReturn (message : String)
  | completed
deriving DecidableEq

/-- An externally visible engine effect: a relayout of a window to a preset's
rectangle, or a notification subscription for a window. -/
inductive NotifKind where
  | resized
  | moved
deriving DecidableEq

inductive Action where
  | relayout (windowId : Nat) (preset : LayoutPreset)
  | subscribe (windowId : Nat) (kind : NotifKind)
deriving DecidableEq

def Action.isSubscribe : Action → Bool
  | .subscribe _ _ => true
  | _ => false

/-- Result of one `observer_callback` invocation: the outcome, the store it
leaves behind, and the relayout calls it issued. -/
structure CallbackResult where
  outcome : CallbackOutcome
  store : Store
  actions : List Action

/-- `observer_callback` from src/main.rs lines 58-96.  A null `refcon` panics
via `expect`; a failed `Window::borrow_inner` panics via `expect`; a failed
magic-id fetch is printed and the callback returns; a bundle id without a
store entry panics via `unwrap`; the window's assignment is read through
`entry(..).or_default()`; if it is enabled the window is relaid out to its
assigned preset's rectangle, and a relayout failure panics via `expect`. -/
def observer_callback (presets : LayoutPresets) (env : CallbackEnv)
    (store : Store) : CallbackResult :=
  if env.refconNull then ⟨.panicked "Got passed null?", store, []⟩
  else match borrow_inner env with
  | .error _ => ⟨.panicked "Window observer should be passed valid window", store, []⟩
  | .ok window =>
    match magic_id env.magicCode env.magicId with
    | .error _ => ⟨.loggedReturn "Failed to get window magic ID", store, []⟩
    | .ok wid =>
      match getStore store window.bundleId with
      | none => ⟨.panicked "called Option::unwrap() on a None value", store, []⟩
      | some inner =>
        let r := entryOrDefault inner wid
        let store2 := insertStore store window.bundleId r.2
        if r.1.enabled then
          match (relayout window.bundleId env.relayoutOracle (presets.rects r.1.preset)).result with
          | .error _ => ⟨.panicked "Failed to relayout window", store2, [.relayout wid r.1.preset]⟩
          | .ok _ => ⟨.completed, store2, [.relayout wid r.1.preset]⟩
        else ⟨.completed, store2, []⟩

/-! ## Keyboard command handler (src/main.rs, `update_layout_for_focused_window`) -/

/-- Foreign-call oracle for the focused window: its magic-id call outcome. -/
structure FocusedWinSpec where
  magicCode : Int
  magicId : Nat
deriving DecidableEq

/-- Foreign-call oracle for one window enumerated by `App::get_windows` in
the reapplication loop: its magic-id call and its relayout set calls. -/
structure LoopWinSpec where
  magicCode : Int
  magicId : Nat
  relayoutOracle : RelayoutOracle
deriving DecidableEq

/-- Foreign-call oracle for one `update_layout_for_focused_window` call:
whether `NSWorkspace::sharedWorkspace` / `frontmostApplication` return null,
the outcome of `App::from_nsapp` (on success, the frontmost app's bundle id),
the outcome of `App::focused_window`, and the outcome of
`App::get_windows`. -/
structure FocusEnv where
  workspaceNull : Bool
  frontmostNull : Bool
  fromNsappResult : Except UnnamedError String
  focusedWindowResult : Except UnnamedError (Option FocusedWinSpec)
  getWindowsResult : Except UnnamedError (List LoopWinSpec)

/-- Result of one `update_layout_for_focused_window` call: the returned
`Result`, the store it leaves behind, the relayout calls it issued, and the
relayout errors it printed (`eprintln!("error: ..")`) while continuing. -/
structure UpdateResult where
  result : Except UnnamedError Unit
  store : Store
  actions : List Action
  loggedErrors : List UnnamedError

/-- The reapplication loop of `update_layout_for_focused_window`
(src/main.rs lines 185-203): for each window of the app, fetch its magic id
(an error aborts the whole call via `?`), read its assignment through
`entry(..).or_default()`, and if enabled relayout it to its own assigned
preset's rectangle, printing and continuing on a relayout error. -/
def reapplyWindows (presets : LayoutPresets) (bid : String) :
    List LoopWinSpec → Store → UpdateResult
  | [], store => ⟨.ok (), store, [], []⟩
  | w :: rest, store =>
    match whatever_context "Failed to get window magic ID"
        (magic_id w.magicCode w.magicId) with
    | .error e => ⟨.error e, store, [], []⟩
    | .ok wid =>
      let inner := (getStore store bid).getD []
      let r := entryOrDefault inner wid
      let store2 := insertStore store bid r.2
      if r.1.enabled then
        let rl := relayout bid w.relayoutOracle (presets.rects r.1.preset)
        let logs : List UnnamedError :=
          match rl.result with
          | .error e => [e]
          | .ok _ => []
        let tail := reapplyWindows presets bid rest store2
        ⟨tail.result, tail.store, .relayout wid r.1.preset :: tail.actions,
          logs ++ tail.loggedErrors⟩
      else
        let tail := reapplyWindows presets bid rest store2
        ⟨tail.result, tail.store, tail.actions, tail.loggedErrors⟩

/-- Lines 150-152 of src/main.rs: if the bundle id has no top-level store
entry, insert an empty one. -/
def ensureBundle (store : Store) (bid : String) : Store :=
  if containsStore store bid then store else insertStore store bid []

/-- Lines 165-183 of src/main.rs: record the keyboard command on the focused
window's assignment — with an explicit preset, insert `(preset, true)`; with
no preset (toggle), flip `enabled` through `entry(..).or_default()`. -/
def applyFocusedCommand (newPreset : Option LayoutPreset) (store1 : Store)
    (bid : String) (fwId : Nat) : Store :=
  match newPreset with
  | some p =>
    insertStore store1 bid
      (insertEntry ((getStore store1 bid).getD []) fwId ⟨p, true⟩)
  | none =>
    insertStore store1 bid (toggleEntry ((getStore store1 bid).getD []) fwId)

/-- `update_layout_for_focused_window` from src/main.rs lines 129-206.
After the frontmost app is resolved, an empty store entry is inserted for its
bundle id if absent (`ensureBundle`); a missing focused window prints a
diagnostic and returns `Ok`; the keyboard command is recorded by
`applyFocusedCommand`; finally every window of the app is reapplied by
`reapplyWindows`. -/
def update_layout_for_focused_window (newPreset : Option LayoutPreset)
    (presets : LayoutPresets) (env : FocusEnv) (store : Store) : UpdateResult :=
  if env.workspaceNull then ⟨.error .UnexpectedNull, store, [], []⟩
  else if env.frontmostNull then ⟨.error .UnexpectedNull, store, [], []⟩
  else match env.fromNsappResult with
  | .error e => ⟨.error e, store, [], []⟩
  | .ok bid =>
    match whatever_context "Failed to get optionally focused window for app"
        env.focusedWindowResult with
    | .error e => ⟨.error e, ensureBundle store bid, [], []⟩
    | .ok none => ⟨.ok (), ensureBundle store bid, [], []⟩
    | .ok (some fw) =>
      match whatever_context "Failed to get magic ID of focused window"
          (magic_id fw.magicCode fw.magicId) with
      | .error e => ⟨.error e, ensureBundle store bid, [], []⟩
      | .ok fwId =>
        match env.getWindowsResult with
        | .error e =>
          ⟨.error e, applyFocusedCommand newPreset (ensureBundle store bid) bid fwId,
            [], []⟩
        | .ok ws =>
          reapplyWindows presets bid ws
            (applyFocusedCommand newPreset (ensureBundle store bid) bid fwId)

/-- Specification-side description of what a keyboard command does to the
focused window's assignment: an explicit preset sets `(preset, true)`, the
toggle command flips `enabled` and keeps the preset. -/
def focusedUpdateAssign (np : Option LayoutPreset)
    (a : WindowLayoutAssignment) : WindowLayoutAssignment :=
  match np with
  | some p => ⟨p, true⟩
  | none => ⟨a.preset, !a.enabled⟩

/-! ## Startup registration (src/main.rs, `main`, lines 244-317) -/

/-- Foreign-call oracle for one window handled by the registration loop: its
handle, the outcomes of its Full relayout set calls, and the outcomes of the
`CFString` creations and `AXObserverAddNotification` calls for the resized
and moved subscriptions. -/
structure RegWindowSpec where
  handle : Nat
  relayoutOracle : RelayoutOracle
  cfstrResizedOk : Bool
  addResizedCode : Int
  cfstrMovedOk : Bool
  addMovedCode : Int
deriving DecidableEq

/-- Foreign-call oracle for one running application of a registered bundle
id: its pid, the `AXObserverCreate` outcome, whether the created observer is
null, the `App::get_windows` outcome, and whether the observer's run-loop
source is null. -/
structure RegAppSpec where
  pid : Int
  observerCreateCode : Int
  observerNull : Bool
  windowsResult : Except UnnamedError (List RegWindowSpec)
  runLoopSourceNull : Bool

/-- The per-window body of the registration loop (src/main.rs lines 258-298):
relayout the window to the Full preset rectangle (an error aborts setup via
`?`), then create the resized-notification string and subscribe, then the
moved-notification string and subscribe; each subscription failure is wrapped
with the bundle id in context.  Actions record each foreign call issued. -/
def registerWindows (presets : LayoutPresets) (bid : String) :
    List RegWindowSpec → Except UnnamedError Unit × List Action
  | [] => (.ok (), [])
  | w :: rest =>
    match (relayout bid w.relayoutOracle (presets.rects .Full)).result with
    | .error e => (.error e, [.relayout w.handle .Full])
    | .ok _ =>
      if !w.cfstrResizedOk then
        (.error .CouldNotCreateCFObject, [.relayout w.handle .Full])
      else if w.addResizedCode ≠ 0 then
        (.error (.Whatever ("Failed to observe window resizes in " ++ bid)
            (some (.AXError w.addResizedCode))),
          [.relayout w.handle .Full, .subscribe w.handle .resized])
      else if !w.cfstrMovedOk then
        (.error .CouldNotCreateCFObject,
          [.relayout w.handle .Full, .subscribe w.handle .resized])
      else if w.addMovedCode ≠ 0 then
        (.error (.Whatever ("Failed to observe window moves in " ++ bid)
            (some (.AXError w.addMovedCode))),
          [.relayout w.handle .Full, .subscribe w.handle .resized,
            .subscribe w.handle .moved])
      else
        match registerWindows presets bid rest with
        | (res, acts) =>
          (res, [.relayout w.handle .Full, .subscribe w.handle .resized,
            .subscribe w.handle .moved] ++ acts)

/-- The per-app body of the registration loop (src/main.rs lines 247-316):
create the observer (an `AXError` or null observer aborts setup), enumerate
the windows, run `registerWindows`, then add the observer's run-loop source
(null aborts with `UnexpectedNull`). -/
def registerApps (presets : LayoutPresets) (bid : String) :
    List RegAppSpec → Except UnnamedError Unit × List Action
  | [] => (.ok (), [])
  | app :: rest =>
    if app.observerCreateCode ≠ 0 then (.error (.AXError app.observerCreateCode), [])
    else if app.observerNull then (.error .UnexpectedNull, [])
    else match app.windowsResult with
    | .error e => (.error e, [])
    | .ok ws =>
      match registerWindows presets bid ws with
      | (.error e, acts) => (.error e, acts)
      | (.ok _, acts) =>
        if app.runLoopSourceNull then (.error .UnexpectedNull, acts)
        else
          match registerApps presets bid rest with
          | (res, acts2) => (res, acts ++ acts2)

/-- One iteration of the outer registration loop of `main` (src/main.rs lines
244-317): `LAYOUT_ASSIGNMENTS.insert(bundle_id, HashMap::new())` — an empty
inner map, with no per-window assignments — followed by the per-app loop. -/
def register_bundle (presets : LayoutPresets) (bid : String)
    (apps : List RegAppSpec) (store : Store) :
    Except UnnamedError Unit × Store × List Action :=
  match registerApps presets bid apps with
  | (res, acts) => (res, insertStore store bid [], acts)

/-! ## Shared-owner reference counting (src/memory.rs) -/

/-- The external CoreFoundation retain counts, per object id.  `CFIndex` is a
signed integer, modelled as `Int`. -/
abbrev ForeignHeap := Nat → Int

/-- The external effect of `CFRetain`: increment the object's retain count by
one (and return the same object). -/
def CFRetain (heap : ForeignHeap) (p : Nat) : ForeignHeap :=
  fun q => if q = p then heap q + 1 else heap q

/-- The external effect of `CFRelease`: decrement the object's retain count
by one. -/
def CFRelease (heap : ForeignHeap) (p : Nat) : ForeignHeap :=
  fun q => if q = p then heap q - 1 else heap q

/-- The `Rc` shared owner from src/memory.rs: a (non-null) foreign pointer,
here an object id into the heap of retain counts. -/
structure RcModel where
  ptr : Nat
deriving DecidableEq

/-- `Clone for Rc` (src/memory.rs lines 140-148): call `CFRetain` on the held
pointer and wrap the returned (same) pointer. -/
def RcModel.clone (heap : ForeignHeap) (rc : RcModel) : ForeignHeap × RcModel :=
  (CFRetain heap rc.ptr, ⟨rc.ptr⟩)

/-- `Drop for Rc` (src/memory.rs lines 152-163): call `CFRelease` on the held
pointer, exactly once. -/
def RcModel.drop (heap : ForeignHeap) (rc : RcModel) : ForeignHeap :=
  CFRelease heap rc.ptr

/-- Duplicate a shared owner `n` times, collecting the duplicates. -/
def cloneN (heap : ForeignHeap) (rc : RcModel) : Nat → ForeignHeap × List RcModel
  | 0 => (heap, [])
  | n + 1 =>
    match cloneN heap rc n with
    | (h, dups) =>
      match RcModel.clone h rc with
      | (h2, d) => (h2, d :: dups)

/-- Drop every owner in the list, in order. -/
def dropAll (heap : ForeignHeap) : List RcModel → ForeignHeap
  | [] => heap
  | d :: rest => dropAll (RcModel.drop heap d) rest

/-! ## Absent-safe attribute access (src/wrappers.rs, `get_raw` and
`App::focused_window`) -/

/-- Foreign-call oracle for one `AccessibilityElement::get_raw` call: whether
the attribute-key `CFString` could be constructed, the status code returned
by `AXUIElementCopyAttributeValue` (0 is success), and the value it wrote
(`none` models a null pointer). -/
structure GetRawEnv where
  cfstrOk : Bool
  copyCode : Int
  value : Option Nat
deriving DecidableEq

/-- `AccessibilityElement::get_raw` (src/wrappers.rs lines 149-171): a
`CFString` construction failure is wrapped with context; a non-success status
code becomes `AXError`; a successful call returns `Ok (none)` for a null
result and `Ok (some v)` otherwise. -/
def get_raw (env : GetRawEnv) : Except UnnamedError (Option Nat) :=
  if !env.cfstrOk then
    .error (.Whatever "Failed to construct CFString from accessibility key"
      (some .CouldNotCreateCFObject))
  else if env.copyCode ≠ 0 then .error (.AXError env.copyCode)
  else .ok env.value

/-- `App::focused_window` (src/wrappers.rs lines 282-304): fetch the
FocusedWindow attribute through `get_raw` (wrapping any error with context);
a null value yields `Ok None`; a non-null value is wrapped as an owned
window carrying the app's bundle id. -/
def focused_window (bundleId : String) (env : GetRawEnv) :
    Except UnnamedError (Option WindowM) :=
  match whatever_context "Failed to get optional focused window for the app"
      (get_raw env) with
  | .error e => .error e
  | .ok none => .ok none
  | .ok (some v) => .ok (some ⟨.Owned v, bundleId⟩)

end Unnamed

namespace Unnamed

/-! ## Theorems for claim C3 -/

/-- C3 (counterexample): the claim states that on a 1440 by 900 screen the
Left preset has size (708, 846).  The code computes width
720 - (8 + 6) = 706, not 708, so the claim as stated is false. -/
theorem C3_counterexample :
    (get_layout_presets screen1440x900).leftHalf.size.width = 706 ∧
    (get_layout_presets screen1440x900).leftHalf.size.width ≠ 708 := by
  simp only [get_layout_presets, screen1440x900, split_horizontal, inset,
    create_ax_rect, LEFT_INSET, RIGHT_INSET, TOP_INSET, BOTTOM_INSET,
    INNER_SPACING, NOTCH_HEIGHT]
  norm_num

/-- C3 (amended): on a screen of width 1440 and height 900,
`get_layout_presets` produces Full = origin (8, 46), size (1424, 846);
Left = origin (8, 46), size (706, 846); Right = origin (726, 46),
size (706, 846).  Each half is 720 wide before insets; the Left half loses
the left inset 8 and half the inner spacing 6, the Right half loses half the
inner spacing 6 and the right inset 8. -/
theorem C3_presets_on_1440x900 :
    get_layout_presets screen1440x900 =
      { full := ⟨⟨8, 46⟩, ⟨1424, 846⟩⟩
        leftHalf := ⟨⟨8, 46⟩, ⟨706, 846⟩⟩
        rightHalf := ⟨⟨726, 46⟩, ⟨706, 846⟩⟩ } := by
  simp only [get_layout_presets, screen1440x900, split_horizontal, inset,
    create_ax_rect, LEFT_INSET, RIGHT_INSET, TOP_INSET, BOTTOM_INSET,
    INNER_SPACING, NOTCH_HEIGHT]
  norm_num

/-! ## Theorems for claim C7 -/

/-- C7: `relayout` issues the Position set call first and the Size set call
second; if setting Position fails, Size is never attempted and the Position
error is returned immediately, wrapped in a `Whatever` whose context message
carries the window's bundle id; and when Position succeeded but Size fails,
the Position write stays applied (no rollback). -/
theorem C7_relayout_contract (bid : String) (frame : AXRect) :
    (∀ o : RelayoutOracle, o.pos = ⟨true, 0⟩ → o.siz.cfstrOk = true →
      (relayout bid o frame).attempted =
        [.position frame.origin, .size frame.size]) ∧
    (∀ o : RelayoutOracle, o.pos.cfstrOk = true → o.pos.code ≠ 0 →
      relayout bid o frame =
        ⟨.error (.Whatever ("Failed to set " ++ bid ++ " position")
            (some (.AXError o.pos.code))),
          [.position frame.origin], []⟩) ∧
    (∀ o : RelayoutOracle, o.pos = ⟨true, 0⟩ → o.siz.cfstrOk = true →
      o.siz.code ≠ 0 →
      (relayout bid o frame).applied = [.position frame.origin] ∧
      (relayout bid o frame).result =
        .error (.Whatever ("Failed to set " ++ bid ++ " size")
          (some (.AXError o.siz.code)))) := by
  refine ⟨?_, ?_, ?_⟩
  · intro o hpos hsiz
    obtain ⟨pos, siz⟩ := o
    cases hpos
    simp only at hsiz
    simp only [relayout, setAttributeResult, hsiz]
    by_cases h : siz.code = 0 <;> simp [h, hsiz]
  · intro o hcf hcode
    simp only [relayout, setAttributeResult, hcf, if_neg hcode]
    simp
  · intro o hpos hsiz hcode
    simp only [relayout, setAttributeResult, hpos, hsiz, if_neg hcode]
    simp

/-! ## Shared store lemmas -/

theorem entryOrDefault_fst (m : InnerMap) (w : Nat) :
    (entryOrDefault m w).1 = (getEntry m w).getD defaultAssignment := by
  unfold entryOrDefault
  cases getEntry m w <;> simp

theorem storeEffective_of_getStore {s : Store} {b : String} {inner : InnerMap}
    (h : getStore s b = some inner) (w : Nat) :
    storeEffective s b w = (getEntry inner w).getD defaultAssignment := by
  simp [storeEffective, h]

theorem getEntry_insertEntry (m : InnerMap) (w x : Nat)
    (a : WindowLayoutAssignment) :
    getEntry (insertEntry m w a) x = if x = w then some a else getEntry m x := by
  induction m with
  | nil =>
    by_cases hx : x = w
    · subst hx
      simp [insertEntry, getEntry]
    · simp [insertEntry, getEntry, hx, if_neg (Ne.symm hx)]
  | cons kv rest ih =>
    obtain ⟨k, v⟩ := kv
    by_cases hk : k = w
    · subst hk
      by_cases hx : x = k
      · subst hx
        simp [insertEntry, getEntry]
      · simp [insertEntry, getEntry, hx, if_neg (Ne.symm hx)]
    · by_cases hx : k = x
      · subst hx
        have hxw : ¬k = w := hk
        simp [insertEntry, getEntry, hk, hxw]
      · simp [insertEntry, getEntry, hk, hx, ih]

theorem getD_getEntry_entryOrDefault (m : InnerMap) (w x : Nat) :
    (getEntry (entryOrDefault m w).2 x).getD defaultAssignment =
      (getEntry m x).getD defaultAssignment := by
  unfold entryOrDefault
  cases h : getEntry m w with
  | some a => simp
  | none =>
    simp only [getEntry_insertEntry]
    by_cases hx : x = w
    · subst hx
      simp [h]
    · simp [hx]

theorem getEntry_toggleEntry (m : InnerMap) (w x : Nat) :
    getEntry (toggleEntry m w) x =
      if x = w then
        some ⟨((getEntry m w).getD defaultAssignment).preset,
          !((getEntry m w).getD defaultAssignment).enabled⟩
      else getEntry m x := by
  unfold toggleEntry
  cases h : getEntry m w with
  | some a =>
    simp only [entryOrDefault, h, getEntry_insertEntry]
    by_cases hx : x = w <;> simp [hx]
  | none =>
    simp only [entryOrDefault, h, getEntry_insertEntry]
    by_cases hx : x = w <;> simp [hx, h, defaultAssignment]

theorem getStore_insertStore (s : Store) (b b2 : String) (m : InnerMap) :
    getStore (insertStore s b m) b2 = if b2 = b then some m else getStore s b2 := by
  induction s with
  | nil =>
    by_cases hx : b2 = b
    · subst hx
      simp [insertStore, getStore]
    · simp [insertStore, getStore, hx, if_neg (Ne.symm hx)]
  | cons kv rest ih =>
    obtain ⟨k, v⟩ := kv
    by_cases hk : k = b
    · subst hk
      by_cases hx : b2 = k
      · subst hx
        simp [insertStore, getStore]
      · simp [insertStore, getStore, hx, if_neg (Ne.symm hx)]
    · by_cases hx : k = b2
      · subst hx
        have hxw : ¬k = b := hk
        simp [insertStore, getStore, hk, hxw]
      · simp [insertStore, getStore, hk, hx, ih]

theorem storeEffective_insertStore (s : Store) (b b2 : String) (m : InnerMap)
    (x : Nat) :
    storeEffective (insertStore s b m) b2 x =
      if b2 = b then (getEntry m x).getD defaultAssignment
      else storeEffective s b2 x := by
  simp only [storeEffective, getStore_insertStore]
  by_cases hb : b2 = b <;> simp [hb]

theorem containsStore_insertStore (s : Store) (b b2 : String) (m : InnerMap) :
    containsStore (insertStore s b m) b2 =
      (b2 = b || containsStore s b2) := by
  simp only [containsStore, getStore_insertStore]
  by_cases hb : b2 = b <;> simp [hb]

theorem storeEffective_of_not_contains {s : Store} {b : String}
    (h : containsStore s b = false) (x : Nat) :
    storeEffective s b x = defaultAssignment := by
  unfold containsStore at h
  cases hg : getStore s b with
  | none => simp [storeEffective, hg, getEntry]
  | some m =>
    rw [hg] at h
    simp at h

theorem storeEffective_ensureBundle (s : Store) (b b2 : String) (x : Nat) :
    storeEffective (ensureBundle s b) b2 x = storeEffective s b2 x := by
  unfold ensureBundle
  cases h : containsStore s b with
  | true => simp
  | false =>
    simp only [Bool.false_eq_true, if_false, storeEffective_insertStore]
    by_cases hb : b2 = b
    · subst hb
      simp [getEntry, storeEffective_of_not_contains h]
    · simp [hb]

theorem reapplyWindows_cons_zero (presets : LayoutPresets) (bid : String)
    (mid : Nat) (ro : RelayoutOracle) (rest : List LoopWinSpec) (store : Store) :
    reapplyWindows presets bid (⟨0, mid, ro⟩ :: rest) store =
      (if (entryOrDefault ((getStore store bid).getD []) mid).1.enabled then
        let store2 := insertStore store bid
          (entryOrDefault ((getStore store bid).getD []) mid).2
        let tail := reapplyWindows presets bid rest store2
        ⟨tail.result, tail.store,
          .relayout mid (entryOrDefault ((getStore store bid).getD []) mid).1.preset
            :: tail.actions,
          (match (relayout bid ro
              (presets.rects (entryOrDefault ((getStore store bid).getD []) mid).1.preset)).result with
           | .error e => [e]
           | .ok _ => []) ++ tail.loggedErrors⟩
      else reapplyWindows presets bid rest (insertStore store bid
        (entryOrDefault ((getStore store bid).getD []) mid).2)) := rfl

theorem reapplyWindows_spec (presets : LayoutPresets) (bid : String)
    (ws : List LoopWinSpec) (store : Store)
    (hall : ∀ w ∈ ws, w.magicCode = 0) :
    (reapplyWindows presets bid ws store).result = .ok () ∧
    (reapplyWindows presets bid ws store).actions =
      ws.filterMap (fun w =>
        if (storeEffective store bid w.magicId).enabled then
          some (.relayout w.magicId (storeEffective store bid w.magicId).preset)
        else none) ∧
    (∀ b x, storeEffective (reapplyWindows presets bid ws store).store b x =
      storeEffective store b x) ∧
    (∀ b, containsStore store b = true →
      containsStore (reapplyWindows presets bid ws store).store b = true) := by
  revert hall
  induction ws generalizing store with
  | nil =>
    intro hall
    simp [reapplyWindows]
  | cons w rest ih =>
    intro hall
    obtain ⟨mc, mid, ro⟩ := w
    have hw : mc = 0 := hall ⟨mc, mid, ro⟩ (List.mem_cons_self _ _)
    subst hw
    have hrest : ∀ w2 ∈ rest, w2.magicCode = 0 := fun w2 hw2 => hall w2 (by simp [hw2])
    have hstep : ∀ b x,
        storeEffective (insertStore store bid
          (entryOrDefault ((getStore store bid).getD []) mid).2) b x =
        storeEffective store b x := by
      intro b x
      rw [storeEffective_insertStore]
      by_cases hb : b = bid
      · subst hb
        simp only [if_pos rfl, getD_getEntry_entryOrDefault]
        rfl
      · simp [hb]
    have hcont : ∀ b, containsStore store b = true →
        containsStore (insertStore store bid
          (entryOrDefault ((getStore store bid).getD []) mid).2) b = true := by
      intro b hb
      rw [containsStore_insertStore]
      simp [hb]
    have heff : (entryOrDefault ((getStore store bid).getD []) mid).1 =
        storeEffective store bid mid := by
      rw [entryOrDefault_fst]
      rfl
    obtain ⟨ih1, ih2, ih3, ih4⟩ := ih (insertStore store bid
      (entryOrDefault ((getStore store bid).getD []) mid).2) hrest
    rw [reapplyWindows_cons_zero]
    by_cases hen : (storeEffective store bid mid).enabled
    · rw [if_pos (show (entryOrDefault ((getStore store bid).getD []) mid).1.enabled = true
        by rw [heff]; exact hen)]
      simp only [List.filterMap_cons]
      refine ⟨ih1, ?_, ?_, ?_⟩
      · simp only [heff, hen, if_true, ih2, List.cons.injEq, true_and]
        exact List.filterMap_congr (fun w2 _ => by rw [hstep bid w2.magicId])
      · intro b x
        rw [ih3, hstep]
      · intro b hb
        exact ih4 b (hcont b hb)
    · rw [if_neg (show ¬(entryOrDefault ((getStore store bid).getD []) mid).1.enabled = true
        by rw [heff]; exact fun h => hen h)]
      simp only [List.filterMap_cons]
      refine ⟨ih1, ?_, ?_, ?_⟩
      · have hen2 : (storeEffective store bid mid).enabled = false := by
          cases h : (storeEffective store bid mid).enabled
          · rfl
          · exact absurd h hen
        simp only [hen2, Bool.false_eq_true, if_false, ih2]
        exact List.filterMap_congr (fun w2 _ => by rw [hstep bid w2.magicId])
      · intro b x
        rw [ih3, hstep]
      · intro b hb
        exact ih4 b (hcont b hb)

theorem storeEffective_focusedInsert (store : Store) (bid : String) (fid : Nat)
    (A : WindowLayoutAssignment) (newInner : InnerMap)
    (hnew : ∀ x, (getEntry newInner x).getD defaultAssignment =
      if x = fid then A
      else (getEntry ((getStore (ensureBundle store bid) bid).getD []) x).getD
        defaultAssignment) :
    ∀ b x, storeEffective (insertStore (ensureBundle store bid) bid newInner) b x =
      if b = bid ∧ x = fid then A else storeEffective store b x := by
  intro b x
  rw [storeEffective_insertStore]
  by_cases hb : b = bid
  · subst b
    rw [if_pos rfl, hnew]
    by_cases hx : x = fid
    · simp [hx]
    · have hrfl : (getEntry ((getStore (ensureBundle store bid) bid).getD []) x).getD
          defaultAssignment = storeEffective (ensureBundle store bid) bid x := rfl
      simp only [hx, if_false]
      rw [hrfl, storeEffective_ensureBundle]
      simp [hx]
  · rw [if_neg hb, storeEffective_ensureBundle]
    have hneg : ¬(b = bid ∧ x = fid) := fun h => hb h.1
    rw [if_neg hneg]

theorem update_spec (np : Option LayoutPreset) (presets : LayoutPresets)
    (env : FocusEnv) (store : Store) (bid : String) (fw : FocusedWinSpec)
    (ws : List LoopWinSpec)
    (hwn : env.workspaceNull = false) (hfn : env.frontmostNull = false)
    (happ : env.fromNsappResult = .ok bid)
    (hfw : env.focusedWindowResult = .ok (some fw))
    (hmc : fw.magicCode = 0)
    (hgw : env.getWindowsResult = .ok ws)
    (hall : ∀ w ∈ ws, w.magicCode = 0) :
    (update_layout_for_focused_window np presets env store).result = .ok () ∧
    (∀ b x, storeEffective
        (update_layout_for_focused_window np presets env store).store b x =
      if b = bid ∧ x = fw.magicId
      then focusedUpdateAssign np (storeEffective store bid fw.magicId)
      else storeEffective store b x) ∧
    (update_layout_for_focused_window np presets env store).actions =
      ws.filterMap (fun w =>
        if (if w.magicId = fw.magicId
            then focusedUpdateAssign np (storeEffective store bid fw.magicId)
            else storeEffective store bid w.magicId).enabled
        then some (.relayout w.magicId
          (if w.magicId = fw.magicId
           then focusedUpdateAssign np (storeEffective store bid fw.magicId)
           else storeEffective store bid w.magicId).preset)
        else none) ∧
    containsStore (update_layout_for_focused_window np presets env store).store bid
      = true := by
  obtain ⟨wn, fn, appr, fwr, gwr⟩ := env
  obtain ⟨fmc, fid⟩ := fw
  replace hwn : wn = false := hwn
  replace hfn : fn = false := hfn
  replace happ : appr = .ok bid := happ
  replace hfw : fwr = .ok (some ⟨fmc, fid⟩) := hfw
  replace hmc : fmc = 0 := hmc
  replace hgw : gwr = .ok ws := hgw
  subst hwn hfn happ hfw hmc hgw
  have ha0 : ∀ x, (getEntry ((getStore (ensureBundle store bid) bid).getD []) x).getD
      defaultAssignment = storeEffective store bid x := by
    intro x
    exact (rfl : _ = storeEffective (ensureBundle store bid) bid x).trans
      (storeEffective_ensureBundle store bid bid x)
  cases np with
  | some p =>
    have hnew : ∀ x, (getEntry (insertEntry
        ((getStore (ensureBundle store bid) bid).getD []) fid ⟨p, true⟩) x).getD
          defaultAssignment =
        if x = fid then focusedUpdateAssign (some p) (storeEffective store bid fid)
        else (getEntry ((getStore (ensureBundle store bid) bid).getD []) x).getD
          defaultAssignment := by
      intro x
      rw [getEntry_insertEntry]
      by_cases hx : x = fid <;> simp [hx, focusedUpdateAssign]
    have hF2 := storeEffective_focusedInsert store bid fid
      (focusedUpdateAssign (some p) (storeEffective store bid fid)) _ hnew
    obtain ⟨r1, r2, r3, r4⟩ := reapplyWindows_spec presets bid ws
      (insertStore (ensureBundle store bid) bid (insertEntry
        ((getStore (ensureBundle store bid) bid).getD []) fid ⟨p, true⟩)) hall
    refine ⟨r1, ?_, ?_, ?_⟩
    · intro b x
      exact (r3 b x).trans (hF2 b x)
    · refine r2.trans (List.filterMap_congr fun w2 _ => ?_)
      rw [hF2 bid w2.magicId]
      by_cases hx : w2.magicId = fid <;> simp [hx]
    · refine r4 bid ?_
      rw [containsStore_insertStore]
      simp
  | none =>
    have hnew : ∀ x, (getEntry (toggleEntry
        ((getStore (ensureBundle store bid) bid).getD []) fid) x).getD
          defaultAssignment =
        if x = fid then focusedUpdateAssign none (storeEffective store bid fid)
        else (getEntry ((getStore (ensureBundle store bid) bid).getD []) x).getD
          defaultAssignment := by
      intro x
      rw [getEntry_toggleEntry]
      by_cases hx : x = fid
      · simp [hx, ha0 fid, focusedUpdateAssign]
      · simp [hx]
    have hF2 := storeEffective_focusedInsert store bid fid
      (focusedUpdateAssign none (storeEffective store bid fid)) _ hnew
    obtain ⟨r1, r2, r3, r4⟩ := reapplyWindows_spec presets bid ws
      (insertStore (ensureBundle store bid) bid (toggleEntry
        ((getStore (ensureBundle store bid) bid).getD []) fid)) hall
    refine ⟨r1, ?_, ?_, ?_⟩
    · intro b x
      exact (r3 b x).trans (hF2 b x)
    · refine r2.trans (List.filterMap_congr fun w2 _ => ?_)
      rw [hF2 bid w2.magicId]
      by_cases hx : w2.magicId = fid <;> simp [hx]
    · refine r4 bid ?_
      rw [containsStore_insertStore]
      simp

theorem reapplyWindows_no_subscribe (presets : LayoutPresets) (bid : String)
    (ws : List LoopWinSpec) (store : Store) :
    ∀ a ∈ (reapplyWindows presets bid ws store).actions, a.isSubscribe = false := by
  induction ws generalizing store with
  | nil => simp [reapplyWindows]
  | cons w rest ih =>
    intro a ha
    simp only [reapplyWindows] at ha
    split at ha
    · simp at ha
    · split at ha
      · simp only [List.mem_cons] at ha
        rcases ha with h | h
        · subst h
          rfl
        · exact ih _ a h
      · exact ih _ a ha

/-! ## Theorems for claim C2 -/

/-- C2 (counterexample): the claim states the notification callback never
panics and that a failed relayout reapplication is caught and logged.  At a
concrete invocation — valid element and context, magic id fetched, the
window's assignment enabled, and the Position set call failing with code
-25212 — the callback panics via `expect("Failed to relayout window")`. -/
theorem C2_counterexample :
    (observer_callback (get_layout_presets screen1440x900)
      { refconNull := false, element := some 7, getPidCode := 0,
        runningAppNull := false, bundleNsstringNull := false,
        bundleId := "com.apple.Safari", magicCode := 0, magicId := 1,
        relayoutOracle := ⟨⟨true, -25212⟩, ⟨true, 0⟩⟩ }
      [("com.apple.Safari", [(1, ⟨.Full, true⟩)])]).outcome =
      .panicked "Failed to relayout window" := by
  rfl

/-- C2 (amended): the callback catches and logs only a failure to fetch the
window's magic id, returning early without panicking; a null context pointer,
a failed window borrow, a window whose bundle id has no store entry, and a
failed relayout of an enabled window each panic, propagating across the
foreign callback boundary. -/
theorem C2_callback_failure_handling :
    (∀ presets env store (w : WindowM), env.refconNull = false →
      borrow_inner env = .ok w → env.magicCode ≠ 0 →
      observer_callback presets env store =
        ⟨.loggedReturn "Failed to get window magic ID", store, []⟩) ∧
    (∀ presets env store, env.refconNull = true →
      (observer_callback presets env store).outcome = .panicked "Got passed null?") ∧
    (∀ presets env store (e : UnnamedError), env.refconNull = false →
      borrow_inner env = .error e →
      (observer_callback presets env store).outcome =
        .panicked "Window observer should be passed valid window") ∧
    (∀ presets env store (w : WindowM), env.refconNull = false →
      borrow_inner env = .ok w → env.magicCode = 0 →
      getStore store w.bundleId = none →
      (observer_callback presets env store).outcome =
        .panicked "called Option::unwrap() on a None value") ∧
    (∀ presets env store (inner : InnerMap) (w : WindowM) (e : UnnamedError),
      env.refconNull = false →
      borrow_inner env = .ok w → env.magicCode = 0 →
      getStore store w.bundleId = some inner →
      (storeEffective store w.bundleId env.magicId).enabled = true →
      (relayout w.bundleId env.relayoutOracle
        (presets.rects (storeEffective store w.bundleId env.magicId).preset)).result =
          .error e →
      (observer_callback presets env store).outcome =
        .panicked "Failed to relayout window") := by
  refine ⟨?_, ?_, ?_, ?_, ?_⟩
  · intro presets env store w hrc hb hm
    simp [observer_callback, hrc, hb, magic_id, hm]
  · intro presets env store hrc
    simp [observer_callback, hrc]
  · intro presets env store e hrc hb
    simp [observer_callback, hrc, hb]
  · intro presets env store w hrc hb hm hst
    simp [observer_callback, hrc, hb, magic_id, hm, hst]
  · intro presets env store inner w e hrc hb hm hst hen hrel
    have hr1 : (entryOrDefault inner env.magicId).1 =
        storeEffective store w.bundleId env.magicId := by
      rw [entryOrDefault_fst, storeEffective_of_getStore hst]
    simp only [observer_callback, hrc, hb, magic_id, hm, hst, if_pos rfl]
    simp only [Bool.false_eq_true, if_false, hr1, hen, if_true, hrel]

/-- Witness for C2: a concrete invocation whose magic-id fetch fails with
code -25202 is caught and logged, not panicked. -/
theorem C2_callback_failure_handling_witness :
    observer_callback (get_layout_presets screen1440x900)
      { refconNull := false, element := some 7, getPidCode := 0,
        runningAppNull := false, bundleNsstringNull := false,
        bundleId := "com.apple.Safari", magicCode := -25202, magicId := 0,
        relayoutOracle := ⟨⟨true, 0⟩, ⟨true, 0⟩⟩ }
      [("com.apple.Safari", [])] =
      ⟨.loggedReturn "Failed to get window magic ID",
        [("com.apple.Safari", [])], []⟩ :=
  C2_callback_failure_handling.1 (get_layout_presets screen1440x900)
    { refconNull := false, element := some 7, getPidCode := 0,
      runningAppNull := false, bundleNsstringNull := false,
      bundleId := "com.apple.Safari", magicCode := -25202, magicId := 0,
      relayoutOracle := ⟨⟨true, 0⟩, ⟨true, 0⟩⟩ }
    [("com.apple.Safari", [])] ⟨.Borrowed 7, "com.apple.Safari"⟩ rfl rfl
    (by decide)

/-! ## Theorems for claim C4 -/

/-- C4: for a (bundle id, window id) pair with no explicit assignment (the
bundle id itself having a store entry, as every registered bundle does), the
effective assignment is the default `(Full, enabled = false)`; and the
callback issues a relayout call — with the assigned preset — if and only if
the assignment's enabled flag is true.  In particular an assignment
`(Left, false)` produces no relayout call. -/
theorem C4_default_and_enabled_gating :
    ∀ presets env store (inner : InnerMap) (w : WindowM),
      env.refconNull = false →
      borrow_inner env = .ok w →
      env.magicCode = 0 →
      getStore store w.bundleId = some inner →
      ((getEntry inner env.magicId = none →
        storeEffective store w.bundleId env.magicId = ⟨.Full, false⟩) ∧
       (observer_callback presets env store).actions =
        (if (storeEffective store w.bundleId env.magicId).enabled then
          [Action.relayout env.magicId
            (storeEffective store w.bundleId env.magicId).preset]
         else [])) := by
  intro presets env store inner w hrc hb hm hst
  have hr1 : (entryOrDefault inner env.magicId).1 =
      storeEffective store w.bundleId env.magicId := by
    rw [entryOrDefault_fst, storeEffective_of_getStore hst]
  constructor
  · intro hnone
    rw [storeEffective_of_getStore hst, hnone]
    rfl
  · rw [storeEffective_of_getStore hst] at hr1 ⊢
    simp only [observer_callback, hrc, hb, magic_id, hm, hst,
      Bool.false_eq_true, if_false, hr1, entryOrDefault_fst]
    by_cases hen : ((getEntry inner env.magicId).getD defaultAssignment).enabled
    · simp only [hen, if_true]
      split <;> simp
    · simp [hen]

/-- Witness for C4 (Scenario B): a resize notification for a window whose
assignment is `(Left, false)` produces no relayout call. -/
theorem C4_default_and_enabled_gating_witness :
    (observer_callback (get_layout_presets screen1440x900)
      { refconNull := false, element := some 7, getPidCode := 0,
        runningAppNull := false, bundleNsstringNull := false,
        bundleId := "com.apple.Safari", magicCode := 0, magicId := 5,
        relayoutOracle := ⟨⟨true, 0⟩, ⟨true, 0⟩⟩ }
      [("com.apple.Safari", [(5, ⟨.Left, false⟩)])]).actions = [] := by
  have h := (C4_default_and_enabled_gating (get_layout_presets screen1440x900)
    { refconNull := false, element := some 7, getPidCode := 0,
      runningAppNull := false, bundleNsstringNull := false,
      bundleId := "com.apple.Safari", magicCode := 0, magicId := 5,
      relayoutOracle := ⟨⟨true, 0⟩, ⟨true, 0⟩⟩ }
    [("com.apple.Safari", [(5, ⟨.Left, false⟩)])]
    [(5, ⟨.Left, false⟩)] ⟨.Borrowed 7, "com.apple.Safari"⟩ rfl rfl rfl rfl).2
  simpa using h

theorem update_no_subscribe (np : Option LayoutPreset) (presets : LayoutPresets)
    (env : FocusEnv) (store : Store) :
    ∀ a ∈ (update_layout_for_focused_window np presets env store).actions,
      a.isSubscribe = false := by
  intro a ha
  unfold update_layout_for_focused_window at ha
  split at ha
  · simp at ha
  split at ha
  · simp at ha
  split at ha
  · simp at ha
  split at ha
  · simp at ha
  · simp at ha
  split at ha
  · simp at ha
  split at ha
  · simp at ha
  exact reapplyWindows_no_subscribe _ _ _ _ a ha

/-! ## Theorems for claim C5 -/

/-- C5: a keyboard command with an explicit preset sets the focused window's
assignment to `(preset, enabled = true)` and then relays out every window of
the frontmost app's bundle id whose own assignment is enabled, each with its
own individually assigned preset: the focused window gets the new preset,
siblings keep their prior assignments, and disabled siblings get no relayout
call. -/
theorem C5_explicit_preset_command (p : LayoutPreset) (presets : LayoutPresets)
    (env : FocusEnv) (store : Store) (bid : String) (fw : FocusedWinSpec)
    (ws : List LoopWinSpec)
    (hwn : env.workspaceNull = false) (hfn : env.frontmostNull = false)
    (happ : env.fromNsappResult = .ok bid)
    (hfw : env.focusedWindowResult = .ok (some fw))
    (hmc : fw.magicCode = 0)
    (hgw : env.getWindowsResult = .ok ws)
    (hall : ∀ w ∈ ws, w.magicCode = 0) :
    (update_layout_for_focused_window (some p) presets env store).result = .ok () ∧
    storeEffective
        (update_layout_for_focused_window (some p) presets env store).store
        bid fw.magicId = ⟨p, true⟩ ∧
    (∀ m, m ≠ fw.magicId →
      storeEffective
        (update_layout_for_focused_window (some p) presets env store).store bid m =
        storeEffective store bid m) ∧
    (update_layout_for_focused_window (some p) presets env store).actions =
      ws.filterMap (fun w =>
        if w.magicId = fw.magicId then some (.relayout w.magicId p)
        else if (storeEffective store bid w.magicId).enabled then
          some (.relayout w.magicId (storeEffective store bid w.magicId).preset)
        else none) := by
  obtain ⟨h1, h2, h3, h4⟩ :=
    update_spec (some p) presets env store bid fw ws hwn hfn happ hfw hmc hgw hall
  refine ⟨h1, ?_, ?_, ?_⟩
  · have h := h2 bid fw.magicId
    rw [if_pos ⟨rfl, rfl⟩] at h
    rw [h]
    rfl
  · intro m hm
    have h := h2 bid m
    rw [if_neg (fun hc => hm hc.2)] at h
    exact h
  · refine h3.trans (List.filterMap_congr fun w2 _ => ?_)
    by_cases hx : w2.magicId = fw.magicId <;> simp [hx, focusedUpdateAssign]

/-- Witness for C5 (Scenario C): with Safari window 1 focused and sibling
window 2 assigned `(Right, true)`, the `H` chord sets window 1 to
`(Left, true)` and relays out window 1 to Left and window 2 to its own Right
preset. -/
theorem C5_explicit_preset_command_witness :
    (update_layout_for_focused_window (some .Left)
      (get_layout_presets screen1440x900)
      { workspaceNull := false, frontmostNull := false,
        fromNsappResult := .ok "com.apple.Safari",
        focusedWindowResult := .ok (some ⟨0, 1⟩),
        getWindowsResult := .ok [⟨0, 1, ⟨⟨true, 0⟩, ⟨true, 0⟩⟩⟩,
          ⟨0, 2, ⟨⟨true, 0⟩, ⟨true, 0⟩⟩⟩] }
      [("com.apple.Safari", [(2, ⟨.Right, true⟩)])]).result = .ok () ∧
    storeEffective (update_layout_for_focused_window (some .Left)
      (get_layout_presets screen1440x900)
      { workspaceNull := false, frontmostNull := false,
        fromNsappResult := .ok "com.apple.Safari",
        focusedWindowResult := .ok (some ⟨0, 1⟩),
        getWindowsResult := .ok [⟨0, 1, ⟨⟨true, 0⟩, ⟨true, 0⟩⟩⟩,
          ⟨0, 2, ⟨⟨true, 0⟩, ⟨true, 0⟩⟩⟩] }
      [("com.apple.Safari", [(2, ⟨.Right, true⟩)])]).store "com.apple.Safari" 1 =
      ⟨.Left, true⟩ ∧
    storeEffective (update_layout_for_focused_window (some .Left)
      (get_layout_presets screen1440x900)
      { workspaceNull := false, frontmostNull := false,
        fromNsappResult := .ok "com.apple.Safari",
        focusedWindowResult := .ok (some ⟨0, 1⟩),
        getWindowsResult := .ok [⟨0, 1, ⟨⟨true, 0⟩, ⟨true, 0⟩⟩⟩,
          ⟨0, 2, ⟨⟨true, 0⟩, ⟨true, 0⟩⟩⟩] }
      [("com.apple.Safari", [(2, ⟨.Right, true⟩)])]).store "com.apple.Safari" 2 =
      ⟨.Right, true⟩ ∧
    (update_layout_for_focused_window (some .Left)
      (get_layout_presets screen1440x900)
      { workspaceNull := false, frontmostNull := false,
        fromNsappResult := .ok "com.apple.Safari",
        focusedWindowResult := .ok (some ⟨0, 1⟩),
        getWindowsResult := .ok [⟨0, 1, ⟨⟨true, 0⟩, ⟨true, 0⟩⟩⟩,
          ⟨0, 2, ⟨⟨true, 0⟩, ⟨true, 0⟩⟩⟩] }
      [("com.apple.Safari", [(2, ⟨.Right, true⟩)])]).actions =
      [.relayout 1 .Left, .relayout 2 .Right] := by
  obtain ⟨h1, h2, h3, h4⟩ := C5_explicit_preset_command .Left
    (get_layout_presets screen1440x900)
    { workspaceNull := false, frontmostNull := false,
      fromNsappResult := .ok "com.apple.Safari",
      focusedWindowResult := .ok (some ⟨0, 1⟩),
      getWindowsResult := .ok [⟨0, 1, ⟨⟨true, 0⟩, ⟨true, 0⟩⟩⟩,
        ⟨0, 2, ⟨⟨true, 0⟩, ⟨true, 0⟩⟩⟩] }
    [("com.apple.Safari", [(2, ⟨.Right, true⟩)])] "com.apple.Safari" ⟨0, 1⟩
    [⟨0, 1, ⟨⟨true, 0⟩, ⟨true, 0⟩⟩⟩, ⟨0, 2, ⟨⟨true, 0⟩, ⟨true, 0⟩⟩⟩]
    rfl rfl rfl rfl rfl rfl (by decide)
  refine ⟨h1, h2, ?_, ?_⟩
  · rw [h3 2 (by decide)]
    rfl
  · rw [h4]
    rfl

/-! ## Theorems for claim C6 -/

/-- C6: the toggle keyboard command flips only the `enabled` flag of the
focused window's effective assignment, leaves its preset unchanged, leaves
every other assignment unchanged, and applying the toggle command twice
restores every effective assignment to its original value. -/
theorem C6_toggle_involution (presets : LayoutPresets) (env : FocusEnv)
    (store : Store) (bid : String) (fw : FocusedWinSpec) (ws : List LoopWinSpec)
    (hwn : env.workspaceNull = false) (hfn : env.frontmostNull = false)
    (happ : env.fromNsappResult = .ok bid)
    (hfw : env.focusedWindowResult = .ok (some fw))
    (hmc : fw.magicCode = 0)
    (hgw : env.getWindowsResult = .ok ws)
    (hall : ∀ w ∈ ws, w.magicCode = 0) :
    (update_layout_for_focused_window none presets env store).result = .ok () ∧
    storeEffective
        (update_layout_for_focused_window none presets env store).store
        bid fw.magicId =
      ⟨(storeEffective store bid fw.magicId).preset,
        !(storeEffective store bid fw.magicId).enabled⟩ ∧
    (∀ m, m ≠ fw.magicId →
      storeEffective
        (update_layout_for_focused_window none presets env store).store bid m =
        storeEffective store bid m) ∧
    (∀ b x, storeEffective (update_layout_for_focused_window none presets env
        (update_layout_for_focused_window none presets env store).store).store b x =
      storeEffective store b x) := by
  obtain ⟨h1, h2, h3, h4⟩ :=
    update_spec none presets env store bid fw ws hwn hfn happ hfw hmc hgw hall
  obtain ⟨g1, g2, g3, g4⟩ :=
    update_spec none presets env
      (update_layout_for_focused_window none presets env store).store bid fw ws
      hwn hfn happ hfw hmc hgw hall
  have hflip : storeEffective
      (update_layout_for_focused_window none presets env store).store
      bid fw.magicId =
      ⟨(storeEffective store bid fw.magicId).preset,
        !(storeEffective store bid fw.magicId).enabled⟩ := by
    have h := h2 bid fw.magicId
    rw [if_pos ⟨rfl, rfl⟩] at h
    exact h
  refine ⟨h1, hflip, ?_, ?_⟩
  · intro m hm
    have h := h2 bid m
    rw [if_neg (fun hc => hm hc.2)] at h
    exact h
  · intro b x
    rw [g2 b x]
    by_cases hb : b = bid
    · subst b
      by_cases hx : x = fw.magicId
      · subst x
        rw [if_pos ⟨rfl, rfl⟩, hflip]
        simp [focusedUpdateAssign]
      · have hneg : ¬(bid = bid ∧ x = fw.magicId) := fun hc => hx hc.2
        rw [if_neg hneg]
        have h := h2 bid x
        rw [if_neg hneg] at h
        exact h
    · have hneg : ¬(b = bid ∧ x = fw.magicId) := fun hc => hb hc.1
      rw [if_neg hneg]
      have h := h2 b x
      rw [if_neg hneg] at h
      exact h

/-- Witness for C6 (Scenario D): toggling Safari window 1, assigned
`(Right, true)`, yields `(Right, false)`; toggling again restores
`(Right, true)`. -/
theorem C6_toggle_involution_witness :
    storeEffective (update_layout_for_focused_window none
      (get_layout_presets screen1440x900)
      { workspaceNull := false, frontmostNull := false,
        fromNsappResult := .ok "com.apple.Safari",
        focusedWindowResult := .ok (some ⟨0, 1⟩),
        getWindowsResult := .ok [⟨0, 1, ⟨⟨true, 0⟩, ⟨true, 0⟩⟩⟩] }
      [("com.apple.Safari", [(1, ⟨.Right, true⟩)])]).store "com.apple.Safari" 1 =
      ⟨.Right, false⟩ ∧
    storeEffective (update_layout_for_focused_window none
      (get_layout_presets screen1440x900)
      { workspaceNull := false, frontmostNull := false,
        fromNsappResult := .ok "com.apple.Safari",
        focusedWindowResult := .ok (some ⟨0, 1⟩),
        getWindowsResult := .ok [⟨0, 1, ⟨⟨true, 0⟩, ⟨true, 0⟩⟩⟩] }
      (update_layout_for_focused_window none
        (get_layout_presets screen1440x900)
        { workspaceNull := false, frontmostNull := false,
          fromNsappResult := .ok "com.apple.Safari",
          focusedWindowResult := .ok (some ⟨0, 1⟩),
          getWindowsResult := .ok [⟨0, 1, ⟨⟨true, 0⟩, ⟨true, 0⟩⟩⟩] }
        [("com.apple.Safari", [(1, ⟨.Right, true⟩)])]).store).store
      "com.apple.Safari" 1 = ⟨.Right, true⟩ := by
  obtain ⟨h1, h2, h3, h4⟩ := C6_toggle_involution
    (get_layout_presets screen1440x900)
    { workspaceNull := false, frontmostNull := false,
      fromNsappResult := .ok "com.apple.Safari",
      focusedWindowResult := .ok (some ⟨0, 1⟩),
      getWindowsResult := .ok [⟨0, 1, ⟨⟨true, 0⟩, ⟨true, 0⟩⟩⟩] }
    [("com.apple.Safari", [(1, ⟨.Right, true⟩)])] "com.apple.Safari" ⟨0, 1⟩
    [⟨0, 1, ⟨⟨true, 0⟩, ⟨true, 0⟩⟩⟩] rfl rfl rfl rfl rfl rfl (by decide)
  constructor
  · rw [h2]
    rfl
  · rw [h4 "com.apple.Safari" 1]
    rfl

/-! ## Theorems for claim C10 -/

/-- C10: a keyboard command issued while the frontmost app's bundle id has no
top-level store entry first inserts an empty entry for that bundle id and
then proceeds normally: the command returns `Ok`, the bundle id is present
afterwards, the focused window's assignment becomes the command's update of
the default `(Full, false)`, and no action of this path is a notification
subscription (so such windows are laid out but not subsequently kept
pinned). -/
theorem C10_unregistered_bundle_command (np : Option LayoutPreset)
    (presets : LayoutPresets) (env : FocusEnv) (store : Store) (bid : String)
    (fw : FocusedWinSpec) (ws : List LoopWinSpec)
    (hnot : containsStore store bid = false)
    (hwn : env.workspaceNull = false) (hfn : env.frontmostNull = false)
    (happ : env.fromNsappResult = .ok bid)
    (hfw : env.focusedWindowResult = .ok (some fw))
    (hmc : fw.magicCode = 0)
    (hgw : env.getWindowsResult = .ok ws)
    (hall : ∀ w ∈ ws, w.magicCode = 0) :
    (update_layout_for_focused_window np presets env store).result = .ok () ∧
    containsStore
      (update_layout_for_focused_window np presets env store).store bid = true ∧
    storeEffective
        (update_layout_for_focused_window np presets env store).store
        bid fw.magicId = focusedUpdateAssign np defaultAssignment ∧
    (∀ a ∈ (update_layout_for_focused_window np presets env store).actions,
      a.isSubscribe = false) := by
  obtain ⟨h1, h2, h3, h4⟩ :=
    update_spec np presets env store bid fw ws hwn hfn happ hfw hmc hgw hall
  refine ⟨h1, h4, ?_, update_no_subscribe np presets env store⟩
  have h := h2 bid fw.magicId
  rw [if_pos ⟨rfl, rfl⟩, storeEffective_of_not_contains hnot] at h
  exact h

/-- Witness for C10: a Full-preset chord for never-registered bundle id
"com.googlecode.iterm2" succeeds, creates the entry, assigns `(Full, true)`
to the focused window, and subscribes nothing. -/
theorem C10_unregistered_bundle_command_witness :
    (update_layout_for_focused_window (some .Full)
      (get_layout_presets screen1440x900)
      { workspaceNull := false, frontmostNull := false,
        fromNsappResult := .ok "com.googlecode.iterm2",
        focusedWindowResult := .ok (some ⟨0, 9⟩),
        getWindowsResult := .ok [⟨0, 9, ⟨⟨true, 0⟩, ⟨true, 0⟩⟩⟩] }
      []).result = .ok () ∧
    containsStore (update_layout_for_focused_window (some .Full)
      (get_layout_presets screen1440x900)
      { workspaceNull := false, frontmostNull := false,
        fromNsappResult := .ok "com.googlecode.iterm2",
        focusedWindowResult := .ok (some ⟨0, 9⟩),
        getWindowsResult := .ok [⟨0, 9, ⟨⟨true, 0⟩, ⟨true, 0⟩⟩⟩] }
      []).store "com.googlecode.iterm2" = true ∧
    storeEffective (update_layout_for_focused_window (some .Full)
      (get_layout_presets screen1440x900)
      { workspaceNull := false, frontmostNull := false,
        fromNsappResult := .ok "com.googlecode.iterm2",
        focusedWindowResult := .ok (some ⟨0, 9⟩),
        getWindowsResult := .ok [⟨0, 9, ⟨⟨true, 0⟩, ⟨true, 0⟩⟩⟩] }
      []).store "com.googlecode.iterm2" 9 = ⟨.Full, true⟩ := by
  obtain ⟨h1, h2, h3, h4⟩ := C10_unregistered_bundle_command (some .Full)
    (get_layout_presets screen1440x900)
    { workspaceNull := false, frontmostNull := false,
      fromNsappResult := .ok "com.googlecode.iterm2",
      focusedWindowResult := .ok (some ⟨0, 9⟩),
      getWindowsResult := .ok [⟨0, 9, ⟨⟨true, 0⟩, ⟨true, 0⟩⟩⟩] }
    [] "com.googlecode.iterm2" ⟨0, 9⟩ [⟨0, 9, ⟨⟨true, 0⟩, ⟨true, 0⟩⟩⟩]
    rfl rfl rfl rfl rfl rfl rfl (by decide)
  exact ⟨h1, h2, h3⟩

/-! ## Theorems for claim C1 -/

theorem registerWindows_success (presets : LayoutPresets) (bid : String)
    (ws : List RegWindowSpec)
    (h : ∀ w ∈ ws, w.relayoutOracle.pos = ⟨true, 0⟩ ∧
      w.relayoutOracle.siz = ⟨true, 0⟩ ∧
      w.cfstrResizedOk = true ∧ w.addResizedCode = 0 ∧
      w.cfstrMovedOk = true ∧ w.addMovedCode = 0) :
    registerWindows presets bid ws = (.ok (), ws.flatMap (fun w =>
      [.relayout w.handle .Full, .subscribe w.handle .resized,
        .subscribe w.handle .moved])) := by
  induction ws with
  | nil => simp [registerWindows]
  | cons w rest ih =>
    obtain ⟨hpos, hsiz, hcr, har, hcm, ham⟩ := h w (List.mem_cons_self _ _)
    have hrest := fun w2 hw2 => h w2 (List.mem_cons_of_mem _ hw2)
    have hrel : (relayout bid w.relayoutOracle (presets.rects .Full)).result =
        .ok () := by
      simp [relayout, setAttributeResult, hpos, hsiz]
    simp [registerWindows, hrel, hcr, har, hcm, ham, ih hrest]

theorem registerApps_success (presets : LayoutPresets) (bid : String)
    (apps : List RegAppSpec)
    (h : ∀ app ∈ apps, app.observerCreateCode = 0 ∧ app.observerNull = false ∧
      app.runLoopSourceNull = false ∧ ∃ ws, app.windowsResult = .ok ws ∧
        ∀ w ∈ ws, w.relayoutOracle.pos = ⟨true, 0⟩ ∧
          w.relayoutOracle.siz = ⟨true, 0⟩ ∧
          w.cfstrResizedOk = true ∧ w.addResizedCode = 0 ∧
          w.cfstrMovedOk = true ∧ w.addMovedCode = 0) :
    registerApps presets bid apps = (.ok (), apps.flatMap (fun app =>
      (match app.windowsResult with
       | .ok ws => ws
       | .error _ => ([] : List RegWindowSpec)).flatMap (fun w =>
        [.relayout w.handle .Full, .subscribe w.handle .resized,
          .subscribe w.handle .moved]))) := by
  induction apps with
  | nil => simp [registerApps]
  | cons app rest ih =>
    obtain ⟨hoc, hon, hrl, ws, hws, hall⟩ := h app (List.mem_cons_self _ _)
    have hrest := fun a2 ha2 => h a2 (List.mem_cons_of_mem _ ha2)
    simp [registerApps, hoc, hon, hrl, hws,
      registerWindows_success presets bid ws hall, ih hrest]

/-- C1 (counterexample): the claim states that registering a bundle id
creates a store entry with assignment `(Full, enabled = true)` for every
enumerated window.  At a concrete all-successful registration of
"com.apple.Safari" with two windows, both windows are relaid out to Full and
subscribed to resized and moved notifications, yet the bundle's inner map is
left empty — window 1 has no stored assignment at all, and its effective
assignment is the default `(Full, false)`, not `(Full, true)`. -/
theorem C1_counterexample :
    (register_bundle (get_layout_presets screen1440x900) "com.apple.Safari"
      [⟨42, 0, false, .ok [⟨1, ⟨⟨true, 0⟩, ⟨true, 0⟩⟩, true, 0, true, 0⟩,
        ⟨2, ⟨⟨true, 0⟩, ⟨true, 0⟩⟩, true, 0, true, 0⟩], false⟩] []).1 = .ok () ∧
    (register_bundle (get_layout_presets screen1440x900) "com.apple.Safari"
      [⟨42, 0, false, .ok [⟨1, ⟨⟨true, 0⟩, ⟨true, 0⟩⟩, true, 0, true, 0⟩,
        ⟨2, ⟨⟨true, 0⟩, ⟨true, 0⟩⟩, true, 0, true, 0⟩], false⟩] []).2.2 =
      [.relayout 1 .Full, .subscribe 1 .resized, .subscribe 1 .moved,
       .relayout 2 .Full, .subscribe 2 .resized, .subscribe 2 .moved] ∧
    getStore (register_bundle (get_layout_presets screen1440x900) "com.apple.Safari"
      [⟨42, 0, false, .ok [⟨1, ⟨⟨true, 0⟩, ⟨true, 0⟩⟩, true, 0, true, 0⟩,
        ⟨2, ⟨⟨true, 0⟩, ⟨true, 0⟩⟩, true, 0, true, 0⟩], false⟩] []).2.1
      "com.apple.Safari" = some [] ∧
    storeEffective (register_bundle (get_layout_presets screen1440x900)
      "com.apple.Safari"
      [⟨42, 0, false, .ok [⟨1, ⟨⟨true, 0⟩, ⟨true, 0⟩⟩, true, 0, true, 0⟩,
        ⟨2, ⟨⟨true, 0⟩, ⟨true, 0⟩⟩, true, 0, true, 0⟩], false⟩] []).2.1
      "com.apple.Safari" 1 ≠ ⟨.Full, true⟩ := by
  refine ⟨rfl, rfl, rfl, ?_⟩
  intro hcontra
  have : (⟨.Full, false⟩ : WindowLayoutAssignment) = ⟨.Full, true⟩ := hcontra
  simp at this

/-- C1 (amended): when the operator registers a bundle id at startup and all
foreign calls succeed, the engine creates an *empty* store entry for the
bundle id (so every window's effective assignment stays the default
`(Full, enabled = false)` — no per-window `(Full, true)` entry is created),
immediately relays out every enumerated window to the Full preset rectangle,
and subscribes each such window to both resized and moved notifications
before setup returns. -/
theorem C1_registration_amended (presets : LayoutPresets) (bid : String)
    (apps : List RegAppSpec) (store : Store)
    (h : ∀ app ∈ apps, app.observerCreateCode = 0 ∧ app.observerNull = false ∧
      app.runLoopSourceNull = false ∧ ∃ ws, app.windowsResult = .ok ws ∧
        ∀ w ∈ ws, w.relayoutOracle.pos = ⟨true, 0⟩ ∧
          w.relayoutOracle.siz = ⟨true, 0⟩ ∧
          w.cfstrResizedOk = true ∧ w.addResizedCode = 0 ∧
          w.cfstrMovedOk = true ∧ w.addMovedCode = 0) :
    (register_bundle presets bid apps store).1 = .ok () ∧
    (register_bundle presets bid apps store).2.1 = insertStore store bid [] ∧
    (∀ x, storeEffective (register_bundle presets bid apps store).2.1 bid x =
      ⟨.Full, false⟩) ∧
    (register_bundle presets bid apps store).2.2 = apps.flatMap (fun app =>
      (match app.windowsResult with
       | .ok ws => ws
       | .error _ => ([] : List RegWindowSpec)).flatMap (fun w =>
        [.relayout w.handle .Full, .subscribe w.handle .resized,
          .subscribe w.handle .moved])) := by
  have hr := registerApps_success presets bid apps h
  unfold register_bundle
  rw [hr]
  refine ⟨rfl, rfl, ?_, rfl⟩
  intro x
  have heq : storeEffective (insertStore store bid []) bid x =
      (getEntry ([] : InnerMap) x).getD defaultAssignment := by
    rw [storeEffective_insertStore]
    simp
  rw [heq]
  rfl

/-- Witness for C1 (amended), Scenario A shape: registering
"com.apple.Safari" with two successfully handled windows leaves an empty
inner map (both effective assignments `(Full, false)`), with both windows
relaid out to Full and subscribed to both notification kinds. -/
theorem C1_registration_amended_witness :
    (register_bundle (get_layout_presets screen1440x900) "com.apple.Safari"
      [⟨7, 0, false, .ok [⟨3, ⟨⟨true, 0⟩, ⟨true, 0⟩⟩, true, 0, true, 0⟩,
        ⟨4, ⟨⟨true, 0⟩, ⟨true, 0⟩⟩, true, 0, true, 0⟩], false⟩] []).1 = .ok () ∧
    (register_bundle (get_layout_presets screen1440x900) "com.apple.Safari"
      [⟨7, 0, false, .ok [⟨3, ⟨⟨true, 0⟩, ⟨true, 0⟩⟩, true, 0, true, 0⟩,
        ⟨4, ⟨⟨true, 0⟩, ⟨true, 0⟩⟩, true, 0, true, 0⟩], false⟩] []).2.1 =
      [("com.apple.Safari", [])] ∧
    storeEffective (register_bundle (get_layout_presets screen1440x900)
      "com.apple.Safari"
      [⟨7, 0, false, .ok [⟨3, ⟨⟨true, 0⟩, ⟨true, 0⟩⟩, true, 0, true, 0⟩,
        ⟨4, ⟨⟨true, 0⟩, ⟨true, 0⟩⟩, true, 0, true, 0⟩], false⟩] []).2.1
      "com.apple.Safari" 3 = ⟨.Full, false⟩ ∧
    (register_bundle (get_layout_presets screen1440x900) "com.apple.Safari"
      [⟨7, 0, false, .ok [⟨3, ⟨⟨true, 0⟩, ⟨true, 0⟩⟩, true, 0, true, 0⟩,
        ⟨4, ⟨⟨true, 0⟩, ⟨true, 0⟩⟩, true, 0, true, 0⟩], false⟩] []).2.2 =
      [.relayout 3 .Full, .subscribe 3 .resized, .subscribe 3 .moved,
       .relayout 4 .Full, .subscribe 4 .resized, .subscribe 4 .moved] := by
  obtain ⟨h1, h2, h3, h4⟩ := C1_registration_amended
    (get_layout_presets screen1440x900) "com.apple.Safari"
    [⟨7, 0, false, .ok [⟨3, ⟨⟨true, 0⟩, ⟨true, 0⟩⟩, true, 0, true, 0⟩,
      ⟨4, ⟨⟨true, 0⟩, ⟨true, 0⟩⟩, true, 0, true, 0⟩], false⟩] []
    (by
      intro app happ
      rw [List.mem_singleton] at happ
      subst happ
      exact ⟨rfl, rfl, rfl, _, rfl, by decide⟩)
  exact ⟨h1, h2, h3 3, h4⟩

/-! ## Theorems for claim C8 -/

/-- C8: cloning a shared owner calls `CFRetain`, incrementing the object's
external retain count by exactly one and touching no other object, with the
duplicate referencing the same object; dropping an owner calls `CFRelease`,
decrementing the count by exactly one; and duplicating an owner `n` times
and then dropping all `n` duplicates leaves every external retain count
exactly where it started — no leak, no over-release. -/
theorem C8_ownership_idempotence :
    (∀ (heap : ForeignHeap) (rc : RcModel),
      (RcModel.clone heap rc).1 rc.ptr = heap rc.ptr + 1 ∧
      (∀ q, q ≠ rc.ptr → (RcModel.clone heap rc).1 q = heap q) ∧
      (RcModel.clone heap rc).2.ptr = rc.ptr) ∧
    (∀ (heap : ForeignHeap) (rc : RcModel),
      RcModel.drop heap rc rc.ptr = heap rc.ptr - 1 ∧
      (∀ q, q ≠ rc.ptr → RcModel.drop heap rc q = heap q)) ∧
    (∀ (heap : ForeignHeap) (rc : RcModel) (n : Nat) (q : Nat),
      dropAll (cloneN heap rc n).1 (cloneN heap rc n).2 q = heap q) := by
  have hcancel : ∀ (h : ForeignHeap) (p : Nat),
      CFRelease (CFRetain h p) p = h := by
    intro h p
    funext q
    by_cases hq : q = p <;> simp [CFRetain, CFRelease, hq]
  refine ⟨?_, ?_, ?_⟩
  · intro heap rc
    refine ⟨by simp [RcModel.clone, CFRetain], ?_, rfl⟩
    intro q hq
    simp [RcModel.clone, CFRetain, hq]
  · intro heap rc
    refine ⟨by simp [RcModel.drop, CFRelease], ?_⟩
    intro q hq
    simp [RcModel.drop, CFRelease, hq]
  · intro heap rc n
    induction n with
    | zero => intro q; rfl
    | succ n ihn =>
      intro q
      show dropAll (cloneN heap rc (n + 1)).1 (cloneN heap rc (n + 1)).2 q = heap q
      have hstep : cloneN heap rc (n + 1) =
          (CFRetain (cloneN heap rc n).1 rc.ptr,
            (⟨rc.ptr⟩ : RcModel) :: (cloneN heap rc n).2) := by
        simp [cloneN, RcModel.clone]
      rw [hstep]
      show dropAll (RcModel.drop (CFRetain (cloneN heap rc n).1 rc.ptr) ⟨rc.ptr⟩)
        (cloneN heap rc n).2 q = heap q
      rw [show RcModel.drop (CFRetain (cloneN heap rc n).1 rc.ptr) ⟨rc.ptr⟩ =
        (cloneN heap rc n).1 from hcancel _ _]
      exact ihn q

/-- Witness for C8: with all counts at 5, cloning object 3 twice and
dropping both duplicates returns its count to 5. -/
theorem C8_ownership_idempotence_witness :
    dropAll (cloneN (fun _ => 5) ⟨3⟩ 2).1 (cloneN (fun _ => 5) ⟨3⟩ 2).2 3 = 5 ∧
    (RcModel.clone (fun _ => 5) ⟨3⟩).1 3 = 6 :=
  ⟨C8_ownership_idempotence.2.2 (fun _ => 5) ⟨3⟩ 2 3,
   (C8_ownership_idempotence.1 (fun _ => 5) ⟨3⟩).1⟩

/-! ## Theorems for claim C9 -/

/-- C9: `focused_window` distinguishes absence from failure — when the
foreign FocusedWindow lookup succeeds, the result is `Ok`, with `none`
exactly when the returned value was null; and an error is returned if and
only if one of the underlying foreign calls (CFString construction or the
attribute copy) failed. -/
theorem C9_focused_window_absent_vs_error (bundleId : String) (env : GetRawEnv) :
    (env.cfstrOk = true → env.copyCode = 0 →
      focused_window bundleId env =
        .ok (env.value.map (fun v => ⟨.Owned v, bundleId⟩))) ∧
    ((∃ e, focused_window bundleId env = .error e) ↔
      (env.cfstrOk = false ∨ env.copyCode ≠ 0)) := by
  obtain ⟨cf, code, val⟩ := env
  cases cf with
  | false =>
    constructor
    · intro h1
      cases h1
    · simp [focused_window, get_raw, whatever_context]
  | true =>
    by_cases hc : code = 0
    · subst hc
      constructor
      · intro _ _
        cases val <;> simp [focused_window, get_raw, whatever_context]
      · constructor
        · rintro ⟨e, he⟩
          cases val <;> simp [focused_window, get_raw, whatever_context] at he
        · rintro (h | h)
          · cases h
          · exact absurd rfl h
    · constructor
      · intro _ h2
        exact absurd h2 hc
      · constructor
        · intro _
          exact Or.inr hc
        · intro _
          exact ⟨.Whatever "Failed to get optional focused window for the app"
              (some (.AXError code)),
            by simp [focused_window, get_raw, whatever_context, hc]⟩

/-- Witness for C9: a successful FocusedWindow lookup that yields a null
value (a frontmost app with no focused window) returns `Ok none`, not an
error. -/
theorem C9_focused_window_absent_vs_error_witness :
    focused_window "com.apple.finder" ⟨true, 0, none⟩ = .ok none :=
  (C9_focused_window_absent_vs_error "com.apple.finder" ⟨true, 0, none⟩).1 rfl rfl

/-- Witness for C7: a concrete relayout of a Safari window at the Full
rectangle whose Position set call fails with code -25212. -/
theorem C7_relayout_contract_witness :
    relayout "com.apple.Safari" ⟨⟨true, -25212⟩, ⟨true, 0⟩⟩ ⟨⟨8, 46⟩, ⟨1424, 846⟩⟩ =
      ⟨.error (.Whatever ("Failed to set " ++ "com.apple.Safari" ++ " position")
          (some (.AXError (-25212)))),
        [.position ⟨8, 46⟩], []⟩ :=
  (C7_relayout_contract "com.apple.Safari" ⟨⟨8, 46⟩, ⟨1424, 846⟩⟩).2.1
    ⟨⟨true, -25212⟩, ⟨true, 0⟩⟩ rfl (by decide)

end Unnamed
